import Mathlib

/-!
Shallow embedding of the orchestration core of `wsl_dev_kit.py`.

External effects (file reads, sockets, subprocesses, the Windows API) are
represented by explicit oracle values passed to each function; the trace of
externally visible actions a function performs is returned alongside its
result, so ordering and absence-of-action properties can be stated.
-/

namespace WslDevKit

/-- The `Environment` enum of the source: detected operating environment. -/
inductive Environment where
  | windows
  | wsl
  | linux
  | macos
  | unknown
deriving DecidableEq, Repr

/-- The `Browser` enum of the source: supported browsers. -/
inductive Browser where
  | chrome
  | firefox
  | librewolf
deriving DecidableEq, Repr

/-- The `.value` attribute of a `Browser` enum member. -/
def Browser.value : Browser → String
  | .chrome => "chrome"
  | .firefox => "firefox"
  | .librewolf => "librewolf"

/-- Outcome of trying to read a file: Python distinguishes `FileNotFoundError`
from every other exception, and `detect_environment` catches only the former. -/
inductive ReadErr where
  | fileNotFound
  | otherError
deriving DecidableEq, Repr

/-- Python's `str.lower()`, character by character. -/
def pyLower (s : String) : String :=
  String.mk (s.data.map Char.toLower)

/-- Python's `str.strip()`: drop leading and trailing whitespace. -/
def pyStrip (s : String) : String :=
  String.mk (((s.data.dropWhile Char.isWhitespace).reverse.dropWhile
    Char.isWhitespace).reverse)

/-- Python's `str.startswith(pat)`. -/
def pyStartsWith (s pat : String) : Bool :=
  pat.data.isPrefixOf s.data

/-- Whether `pat` occurs inside `s`, Python's `pat in s`. -/
def infixAux (pat : List Char) : List Char → Bool
  | [] => pat.isPrefixOf []
  | c :: rest => pat.isPrefixOf (c :: rest) || infixAux pat rest

/-- Python's `pat in s` membership test on strings. -/
def pyContains (s pat : String) : Bool :=
  infixAux pat.data s.data

/-- The worker of `pySplit`: walk the characters, accumulating the current
word (reversed) and emitting it at each whitespace run or at the end. -/
def splitWsAux : List Char → List Char → List String
  | [], acc => if acc.isEmpty then [] else [String.mk acc.reverse]
  | c :: rest, acc =>
    if c.isWhitespace then
      if acc.isEmpty then splitWsAux rest []
      else String.mk acc.reverse :: splitWsAux rest []
    else splitWsAux rest (c :: acc)

/-- Python's `str.split()` with no separator: split on runs of whitespace,
dropping empty pieces. -/
def pySplit (s : String) : List String :=
  splitWsAux s.data []

/-- `detect_environment` from the source.  `system` is the value of
`platform.system()` and `procVersion` the outcome of reading `/proc/version`
(only consulted on Linux).  The `try` block catches `FileNotFoundError` only,
so every other read error propagates out of the function. -/
def detect_environment (system : String) (procVersion : Except ReadErr String) :
    Except ReadErr Environment :=
  let sys := pyLower system
  if sys = "windows" then .ok .windows
  else if sys = "linux" then
    match procVersion with
    | .ok content =>
      let v := pyLower content
      if pyContains v "microsoft" || pyContains v "wsl" then
        .ok .wsl
      else
        .ok .linux
    | .error .fileNotFound => .ok .linux
    | .error e => .error e
  else if sys = "darwin" then .ok .macos
  else .ok .unknown

/-- One iteration of the `/etc/resolv.conf` scanning loop of
`detect_wsl_host_ip`: strip the line, and if it starts with `nameserver` and
splits into at least two fields, return the second field. -/
def nameserverOfLine (raw : String) : Option String :=
  let line := pyStrip raw
  if pyStartsWith line "nameserver" then
    match pySplit line with
    | _ :: second :: _ => some second
    | _ => none
  else none

/-- Method 1 of `detect_wsl_host_ip`: first usable `nameserver` entry of the
resolver configuration. -/
def firstNameserver (lines : List String) : Option String :=
  lines.findSome? nameserverOfLine

/-- Method 2 of `detect_wsl_host_ip`: parse the output of
`ip route show default`.  The oracle is `error` when the subprocess call
itself raised (e.g. a timeout), otherwise `(returncode, stdout)`. -/
def parse_default_route (ipRoute : Except Unit (Int × String)) : String :=
  match ipRoute with
  | .error _ => ""
  | .ok (rc, out) =>
    if rc = 0 then
      match pySplit (pyStrip out) with
      | "default" :: "via" :: ip :: _ => ip
      | _ => ""
    else ""

/-- `detect_wsl_host_ip` from the source.  `env` is the result of the
`detect_environment()` call it makes first; `resolvConf` is the outcome of
opening and reading `/etc/resolv.conf` (its lines on success).  Both methods
sit inside one `try` whose `except` returns the empty string, so a failure to
read the resolver configuration skips the route fallback entirely. -/
def detect_wsl_host_ip (env : Environment) (resolvConf : Except ReadErr (List String))
    (ipRoute : Except Unit (Int × String)) : String :=
  if env ≠ Environment.wsl then ""
  else
    match resolvConf with
    | .error _ => ""
    | .ok lines =>
      match firstNameserver lines with
      | some ip => ip
      | none => parse_default_route ipRoute

/-- Inputs of `is_admin`: the `platform.system()` value and the outcome of the
`ctypes.windll.shell32.IsUserAnAdmin()` call (error when `import ctypes` or
the call itself raises). -/
structure AdminCtx where
  system : String
  windllAdmin : Except Unit Int

/-- `is_admin` from the source: `False` whenever `platform.system().lower()`
is not `windows`, otherwise the Windows API answer (with any exception
degraded to `False`). -/
def is_admin (c : AdminCtx) : Bool :=
  if pyLower c.system ≠ "windows" then false
  else
    match c.windllAdmin with
    | .ok v => v != 0
    | .error _ => false

/-- A netsh portproxy v4tov4 rule, as managed by `setup_portproxy` and
`cleanup_portproxy`. -/
structure RelayRule where
  listenAddress : String
  listenPort : Nat
  connectAddress : String
  connectPort : Nat
deriving DecidableEq, Repr

/-- One invocation of the external `netsh interface portproxy` command. -/
inductive NetshCall where
  | deleteRule (listenAddress : String) (listenPort : Nat)
  | addRule (listenAddress : String) (listenPort : Nat)
      (connectAddress : String) (connectPort : Nat)
deriving DecidableEq, Repr

/-- Whether a rule matches the `(listenaddress, listenport)` pair named in a
netsh delete. -/
def ruleMatches (ip : String) (port : Nat) (r : RelayRule) : Bool :=
  r.listenAddress == ip && r.listenPort == port

/-- `setup_portproxy` from the source, over an explicit rule set.  When not
elevated it returns `False` touching nothing; otherwise netsh first deletes
any rule for `(wsl_ip, port)` (errors ignored) and then adds
`wsl_ip:port -> 127.0.0.1:port`; `addOk` is the exit status of the add.
Returns the flag, the final rule set, and the netsh invocations made. -/
def setup_portproxy (c : AdminCtx) (addOk : Bool) (wsl_ip : String) (port : Nat)
    (rules : List RelayRule) : Bool × List RelayRule × List NetshCall :=
  if !(is_admin c) then (false, rules, [])
  else
    let afterDelete := rules.filter (fun r => !(ruleMatches wsl_ip port r))
    let calls := [NetshCall.deleteRule wsl_ip port,
                  NetshCall.addRule wsl_ip port "127.0.0.1" port]
    if addOk then
      (true, afterDelete ++ [⟨wsl_ip, port, "127.0.0.1", port⟩], calls)
    else
      (false, afterDelete, calls)

/-- `cleanup_portproxy` from the source: without elevation it returns `False`
touching nothing; otherwise it deletes the matching rule and returns `True`
whether or not the rule existed. -/
def cleanup_portproxy (c : AdminCtx) (wsl_ip : String) (port : Nat)
    (rules : List RelayRule) : Bool × List RelayRule × List NetshCall :=
  if !(is_admin c) then (false, rules, [])
  else
    (true, rules.filter (fun r => !(ruleMatches wsl_ip port r)),
     [NetshCall.deleteRule wsl_ip port])

/-- The parsed body served at `/json/version`, reduced to the two fields
`verify_chrome_listening` looks for. -/
structure VersionDoc where
  hasBrowserField : Bool
  hasWebSocketDebuggerUrl : Bool
deriving DecidableEq, Repr

/-- The observable outcome of one polling attempt of
`verify_chrome_listening`: whether the socket operations raised, the
`connect_ex` result (0 means the port is open), and the outcome of the HTTP
fetch of `/json/version` (`none` when the request or JSON parse raised). -/
structure Attempt where
  connectRaises : Bool
  connectResult : Int
  fetchOutcome : Option VersionDoc
deriving DecidableEq, Repr

/-- An attempt returns `True` from the loop exactly when the socket did not
raise, the port was open, and the fetched document has a `Browser` or a
`webSocketDebuggerUrl` field. -/
def attemptSucceeds (a : Attempt) : Bool :=
  !a.connectRaises && a.connectResult == 0 &&
    (match a.fetchOutcome with
     | some d => d.hasBrowserField || d.hasWebSocketDebuggerUrl
     | none => false)

/-- The retry loop of `verify_chrome_listening`, recursing on the number of
remaining iterations; returns the result and the number of sleeps performed.
The source sleeps after a failed attempt only while `attempt < max_retries - 1`,
which inside the loop is `attempt + 1 < max_retries`. -/
def verifyAux (oracle : Nat → Attempt) (maxRetries attempt : Nat) :
    Nat → Bool × Nat
  | 0 => (false, 0)
  | remaining + 1 =>
    if attemptSucceeds (oracle attempt) then (true, 0)
    else
      let s := if attempt + 1 < maxRetries then 1 else 0
      let rest := verifyAux oracle maxRetries (attempt + 1) remaining
      (rest.1, s + rest.2)

/-- `verify_chrome_listening` from the source: up to `maxRetries` polling
attempts against `127.0.0.1:port`, every exception caught inside the loop. -/
def verify_chrome_listening (oracle : Nat → Attempt) (maxRetries : Nat) :
    Bool × Nat :=
  verifyAux oracle maxRetries 0 maxRetries

/-- `cleanup_profile` from the source.  A profile directory is `none` when
absent, otherwise the list of entries stored under it.
An absent directory is left alone;
otherwise `shutil.rmtree(profile_dir, ignore_errors=True)` runs: every entry
whose removal fails is skipped and survives, and the directory itself can
only be removed once emptied.  No error is ever raised. -/
def cleanup_profile (d : Option (List String)) (removalFails : String → Bool) :
    Option (List String) :=
  match d with
  | none => none
  | some entries =>
    let surviving := entries.filter removalFails
    if surviving.isEmpty then none else some surviving

/-- The fields of the `WindowsSetupResult` dataclass. -/
structure WindowsSetupResult where
  success : Bool
  wsl_ip : String
  portproxy_configured : Bool
  chrome_listening : Bool
  error_message : String
deriving DecidableEq, Repr

/-- Externally visible actions of a `WindowsOrchestrator.run` execution. -/
inductive Action where
  | queryAdapter
  | killBrowser
  | sleep
  | cleanupProfileDir
  | spawnBrowser
  | netsh (call : NetshCall)
deriving DecidableEq, Repr

/-- The oracle for one `WindowsOrchestrator.run` execution: the elevation
context, the `get_wsl_adapter_ip` answer (empty when not found), the
`find_browser` answer, whether the `Popen` spawn succeeded, the polling
outcomes for `verify_chrome_listening`, the netsh add exit status, and the
portproxy rule set the run starts from. -/
structure WinWorld where
  admin : AdminCtx
  adapterIP : String
  browserPath : Option String
  launchOk : Bool
  verifyOracle : Nat → Attempt
  addOk : Bool
  rules : List RelayRule

/-- `WindowsOrchestrator.run` from the source, following its gates in order:
admin check, WSL adapter IP, browser path, kill/sleep/profile cleanup,
launch, `verify_chrome_listening` (10 attempts), `setup_portproxy`, success. -/
def WindowsOrchestrator.run (browser : Browser) (debugPort : Nat) (w : WinWorld) :
    WindowsSetupResult × List Action :=
  let r0 : WindowsSetupResult := ⟨false, "", false, false, ""⟩
  if !(is_admin w.admin) then
    ({ r0 with error_message := "Administrator privileges required" }, [])
  else
    let wslIp := w.adapterIP
    let r1 := { r0 with wsl_ip := wslIp }
    if wslIp = "" then
      ({ r1 with error_message := "Could not detect WSL adapter IP" },
       [Action.queryAdapter])
    else
      match w.browserPath with
      | none =>
        ({ r1 with error_message := "Could not find " ++ browser.value ++ " installation" },
         [Action.queryAdapter])
      | some _path =>
        let tr0 := [Action.queryAdapter, Action.killBrowser, Action.sleep,
                    Action.cleanupProfileDir]
        if !w.launchOk then
          ({ r1 with error_message := "Failed to launch browser" }, tr0)
        else
          let tr1 := tr0 ++ [Action.spawnBrowser]
          let v := verify_chrome_listening w.verifyOracle 10
          let tr2 := tr1 ++ List.replicate v.2 Action.sleep
          if !v.1 then
            ({ r1 with error_message := "Browser did not start listening on debug port" },
             tr2)
          else
            let r2 := { r1 with chrome_listening := true }
            let p := setup_portproxy w.admin w.addOk wslIp debugPort w.rules
            let tr3 := tr2 ++ p.2.2.map Action.netsh
            if !p.1 then
              ({ r2 with error_message := "Failed to configure portproxy" }, tr3)
            else
              ({ r2 with portproxy_configured := true, success := true }, tr3)

/-- The fields of the `WSLSetupResult` dataclass. -/
structure WSLSetupResult where
  success : Bool
  windows_host_ip : String
  windows_setup_completed : Bool
  connection_verified : Bool
  error_message : String
deriving DecidableEq, Repr

/-- Externally visible actions of a `WSLOrchestrator.run` execution:
a TCP connectivity check, the PowerShell remote invocation of the tool on the
Windows side, or a sleep between polling attempts. -/
inductive WslAction where
  | checkConnection
  | remoteInvoke
  | sleep
deriving DecidableEq, Repr

/-- The oracle for one `WSLOrchestrator.run` execution: the
`detect_wsl_host_ip` answer, the outcome of the initial `verify_connection`
check, whether the script path is under `/mnt/`, the outcome of the remote
PowerShell invocation, and the outcomes of the final polling checks. -/
structure WslWorld where
  hostIP : String
  initialConnect : Bool
  scriptOnMnt : Bool
  psExitOk : Bool
  psOutput : String
  pollConnect : Nat → Bool

/-- The final verification polling loop of `WSLOrchestrator.run` (5 attempts,
sleeping between all but the last), with its action trace. -/
def wslPoll (conn : Nat → Bool) (maxAttempts attempt : Nat) :
    Nat → Bool × List WslAction
  | 0 => (false, [])
  | remaining + 1 =>
    if conn attempt then (true, [WslAction.checkConnection])
    else
      let acts := if attempt + 1 < maxAttempts then
          [WslAction.checkConnection, WslAction.sleep]
        else [WslAction.checkConnection]
      let rest := wslPoll conn maxAttempts (attempt + 1) remaining
      (rest.1, acts ++ rest.2)

/-- `WSLOrchestrator.run` from the source: host IP discovery, the
short-circuit connectivity check, the Windows-path conversion gate, the
remote PowerShell invocation, and the final 5-attempt verification loop. -/
def WSLOrchestrator.run (w : WslWorld) : WSLSetupResult × List WslAction :=
  let r0 : WSLSetupResult := ⟨false, "", false, false, ""⟩
  let hip := w.hostIP
  let r1 := { r0 with windows_host_ip := hip }
  if hip = "" then
    ({ r1 with error_message := "Could not detect Windows host IP from WSL" }, [])
  else if w.initialConnect then
    ({ r1 with success := true, windows_setup_completed := true,
               connection_verified := true },
     [WslAction.checkConnection])
  else if !w.scriptOnMnt then
    ({ r1 with error_message := "Could not determine Windows path to script" },
     [WslAction.checkConnection])
  else if !w.psExitOk then
    ({ r1 with error_message := "Windows setup failed: " ++ w.psOutput },
     [WslAction.checkConnection, WslAction.remoteInvoke])
  else
    let r2 := { r1 with windows_setup_completed := true }
    let p := wslPoll w.pollConnect 5 0 5
    let tr := [WslAction.checkConnection, WslAction.remoteInvoke] ++ p.2
    if p.1 then
      ({ r2 with connection_verified := true, success := true }, tr)
    else
      ({ r2 with error_message := "Connection verification failed" }, tr)

/-- A polling attempt whose socket operations raise. -/
def failingAttempt : Attempt := ⟨true, 1, none⟩

/-- A polling attempt that finds the port open and valid protocol metadata. -/
def okAttempt : Attempt := ⟨false, 0, some ⟨true, false⟩⟩

/-- An elevated Windows elevation context. -/
def adminElevated : AdminCtx := ⟨"Windows", Except.ok 1⟩

/-- A Windows elevation context without Administrator rights. -/
def adminDenied : AdminCtx := ⟨"Windows", Except.ok 0⟩

/-- A sample starting portproxy rule set. -/
def sampleRules : List RelayRule :=
  [⟨"172.20.144.1", 9222, "127.0.0.1", 9222⟩, ⟨"10.0.0.5", 9000, "127.0.0.1", 9000⟩]

/-- A control-side world without elevation. -/
def winWorldDenied : WinWorld :=
  { admin := adminDenied, adapterIP := "172.20.144.1",
    browserPath := some "C:/Program Files/Google/Chrome/Application/chrome.exe",
    launchOk := true, verifyOracle := fun _ => okAttempt, addOk := true, rules := [] }

/-- A control-side world where the browser never starts listening. -/
def winWorldNoListen : WinWorld :=
  { admin := adminElevated, adapterIP := "172.20.144.1",
    browserPath := some "C:/Program Files/Google/Chrome/Application/chrome.exe",
    launchOk := true, verifyOracle := fun _ => failingAttempt, addOk := true, rules := [] }

/-- A control-side world where every step succeeds. -/
def winWorldOk : WinWorld :=
  { admin := adminElevated, adapterIP := "172.20.144.1",
    browserPath := some "C:/Program Files/Google/Chrome/Application/chrome.exe",
    launchOk := true, verifyOracle := fun _ => okAttempt, addOk := true, rules := [] }

/-- A guest-side world where the initial connectivity check already succeeds. -/
def wslWorldConnected : WslWorld :=
  { hostIP := "192.168.1.1", initialConnect := true, scriptOnMnt := true,
    psExitOk := true, psOutput := "", pollConnect := fun _ => true }

/-- C6: under elevated privilege, `setup_portproxy` is idempotent — calling it
twice in succession with the same listen address and port leaves the same
final rule set as calling it once, because the existing matching rule is
always deleted before the new one is added. -/
theorem setup_portproxy_idempotent (c : AdminCtx) (addOk : Bool) (wsl_ip : String)
    (port : Nat) (rules : List RelayRule) (h : is_admin c = true) :
    (setup_portproxy c addOk wsl_ip port
        (setup_portproxy c addOk wsl_ip port rules).2.1).2.1 =
      (setup_portproxy c addOk wsl_ip port rules).2.1 := by
  have hm : ruleMatches wsl_ip port ⟨wsl_ip, port, "127.0.0.1", port⟩ = true := by
    simp [ruleMatches]
  cases addOk with
  | false => simp [setup_portproxy, h, List.filter_filter]
  | true => simp [setup_portproxy, h, List.filter_append, List.filter_filter, hm]

/-- Witness for `setup_portproxy_idempotent` at a concrete elevated context
and rule set. -/
theorem setup_portproxy_idempotent_witness :
    is_admin adminElevated = true ∧
    (setup_portproxy adminElevated true "172.20.144.1" 9222
        (setup_portproxy adminElevated true "172.20.144.1" 9222 sampleRules).2.1).2.1 =
      (setup_portproxy adminElevated true "172.20.144.1" 9222 sampleRules).2.1 :=
  ⟨by decide,
   setup_portproxy_idempotent adminElevated true "172.20.144.1" 9222 sampleRules
     (by decide)⟩

/-- The polling loop of `verify_chrome_listening` returns `false` whenever
every attempt it may make fails. -/
theorem verifyAux_eq_false (oracle : Nat → Attempt) (maxRetries : Nat) :
    ∀ (remaining attempt : Nat),
      (∀ i, attempt ≤ i → i < attempt + remaining →
        attemptSucceeds (oracle i) = false) →
      (verifyAux oracle maxRetries attempt remaining).1 = false := by
  intro remaining
  induction remaining with
  | zero => intro attempt _; rfl
  | succ n ih =>
    intro attempt h
    have h0 : attemptSucceeds (oracle attempt) = false :=
      h attempt (Nat.le_refl _) (by omega)
    show (verifyAux oracle maxRetries attempt (n + 1)).1 = false
    simp only [verifyAux, h0, Bool.false_eq_true, if_false]
    exact ih (attempt + 1) (fun i hi1 hi2 => h i (by omega) (by omega))

/-- C7: `verify_chrome_listening` with zero attempts returns `false`
immediately without sleeping, and for every attempt budget, exhausting all
attempts (every attempt failing, exceptions included) returns `false` — the
embedding makes every exception observable through the attempt oracle, and
the loop swallows them all. -/
theorem verify_chrome_listening_exhaustion :
    (∀ oracle : Nat → Attempt, verify_chrome_listening oracle 0 = (false, 0)) ∧
    (∀ (oracle : Nat → Attempt) (n : Nat),
      (∀ i, i < n → attemptSucceeds (oracle i) = false) →
      (verify_chrome_listening oracle n).1 = false) := by
  constructor
  · intro oracle; rfl
  · intro oracle n h
    exact verifyAux_eq_false oracle n n 0 (fun i _ hi => h i (by omega))

/-- Witness for `verify_chrome_listening_exhaustion`: zero attempts, and
three exhausted failing attempts. -/
theorem verify_chrome_listening_exhaustion_witness :
    verify_chrome_listening (fun _ => failingAttempt) 0 = (false, 0) ∧
    (verify_chrome_listening (fun _ => failingAttempt) 3).1 = false :=
  ⟨verify_chrome_listening_exhaustion.1 (fun _ => failingAttempt),
   verify_chrome_listening_exhaustion.2 (fun _ => failingAttempt) 3
     (fun _ _ => rfl)⟩

/-- C10: on a platform whose reported operating-system identity is not
Windows, `is_admin` returns `false`, and consequently `setup_portproxy` and
`cleanup_portproxy` return `false` without invoking netsh and without
touching the rule set. -/
theorem is_admin_false_off_windows (c : AdminCtx)
    (h : pyLower c.system ≠ "windows") :
    is_admin c = false ∧
    ∀ (addOk : Bool) (ip : String) (port : Nat) (rules : List RelayRule),
      setup_portproxy c addOk ip port rules = (false, rules, []) ∧
      cleanup_portproxy c ip port rules = (false, rules, []) := by
  have ha : is_admin c = false := by simp [is_admin, h]
  refine ⟨ha, ?_⟩
  intro addOk ip port rules
  exact ⟨by simp [setup_portproxy, ha], by simp [cleanup_portproxy, ha]⟩

/-- Witness for `is_admin_false_off_windows` on a Linux platform. -/
theorem is_admin_false_off_windows_witness :
    pyLower (AdminCtx.mk "Linux" (Except.ok 1)).system ≠ "windows" ∧
    is_admin ⟨"Linux", Except.ok 1⟩ = false ∧
    setup_portproxy ⟨"Linux", Except.ok 1⟩ true "172.20.144.1" 9222 sampleRules =
      (false, sampleRules, []) ∧
    cleanup_portproxy ⟨"Linux", Except.ok 1⟩ "172.20.144.1" 9222 sampleRules =
      (false, sampleRules, []) :=
  ⟨by decide,
   (is_admin_false_off_windows ⟨"Linux", Except.ok 1⟩ (by decide)).1,
   ((is_admin_false_off_windows ⟨"Linux", Except.ok 1⟩ (by decide)).2
     true "172.20.144.1" 9222 sampleRules).1,
   ((is_admin_false_off_windows ⟨"Linux", Except.ok 1⟩ (by decide)).2
     true "172.20.144.1" 9222 sampleRules).2⟩

/-- Exhaustive case analysis of `WindowsOrchestrator.run`: exactly one of the
seven gates decides the outcome, and each case fixes the returned result and
the full action trace. -/
theorem windows_run_cases (browser : Browser) (debugPort : Nat) (w : WinWorld) :
    (is_admin w.admin = false ∧
      WindowsOrchestrator.run browser debugPort w =
        (⟨false, "", false, false, "Administrator privileges required"⟩, [])) ∨
    (is_admin w.admin = true ∧ w.adapterIP = "" ∧
      WindowsOrchestrator.run browser debugPort w =
        (⟨false, "", false, false, "Could not detect WSL adapter IP"⟩,
         [Action.queryAdapter])) ∨
    (is_admin w.admin = true ∧ w.adapterIP ≠ "" ∧ w.browserPath = none ∧
      WindowsOrchestrator.run browser debugPort w =
        (⟨false, w.adapterIP, false, false,
          "Could not find " ++ browser.value ++ " installation"⟩,
         [Action.queryAdapter])) ∨
    (is_admin w.admin = true ∧ w.adapterIP ≠ "" ∧ w.browserPath ≠ none ∧
      w.launchOk = false ∧
      WindowsOrchestrator.run browser debugPort w =
        (⟨false, w.adapterIP, false, false, "Failed to launch browser"⟩,
         [Action.queryAdapter, Action.killBrowser, Action.sleep,
          Action.cleanupProfileDir])) ∨
    (is_admin w.admin = true ∧ w.adapterIP ≠ "" ∧ w.browserPath ≠ none ∧
      w.launchOk = true ∧ (verify_chrome_listening w.verifyOracle 10).1 = false ∧
      WindowsOrchestrator.run browser debugPort w =
        (⟨false, w.adapterIP, false, false,
          "Browser did not start listening on debug port"⟩,
         [Action.queryAdapter, Action.killBrowser, Action.sleep,
          Action.cleanupProfileDir, Action.spawnBrowser] ++
          List.replicate (verify_chrome_listening w.verifyOracle 10).2 Action.sleep)) ∨
    (is_admin w.admin = true ∧ w.adapterIP ≠ "" ∧ w.browserPath ≠ none ∧
      w.launchOk = true ∧ (verify_chrome_listening w.verifyOracle 10).1 = true ∧
      w.addOk = false ∧
      WindowsOrchestrator.run browser debugPort w =
        (⟨false, w.adapterIP, false, true, "Failed to configure portproxy"⟩,
         [Action.queryAdapter, Action.killBrowser, Action.sleep,
          Action.cleanupProfileDir, Action.spawnBrowser] ++
          List.replicate (verify_chrome_listening w.verifyOracle 10).2 Action.sleep ++
          [Action.netsh (NetshCall.deleteRule w.adapterIP debugPort),
           Action.netsh (NetshCall.addRule w.adapterIP debugPort "127.0.0.1" debugPort)])) ∨
    (is_admin w.admin = true ∧ w.adapterIP ≠ "" ∧ w.browserPath ≠ none ∧
      w.launchOk = true ∧ (verify_chrome_listening w.verifyOracle 10).1 = true ∧
      w.addOk = true ∧
      WindowsOrchestrator.run browser debugPort w =
        (⟨true, w.adapterIP, true, true, ""⟩,
         [Action.queryAdapter, Action.killBrowser, Action.sleep,
          Action.cleanupProfileDir, Action.spawnBrowser] ++
          List.replicate (verify_chrome_listening w.verifyOracle 10).2 Action.sleep ++
          [Action.netsh (NetshCall.deleteRule w.adapterIP debugPort),
           Action.netsh (NetshCall.addRule w.adapterIP debugPort "127.0.0.1" debugPort)])) := by
  by_cases ha : is_admin w.admin = true
  · by_cases hip : w.adapterIP = ""
    · exact Or.inr (Or.inl ⟨ha, hip, by simp [WindowsOrchestrator.run, ha, hip]⟩)
    · by_cases hbp : w.browserPath = none
      · exact Or.inr (Or.inr (Or.inl ⟨ha, hip, hbp,
          by simp [WindowsOrchestrator.run, ha, hip, hbp]⟩))
      · obtain ⟨p, hp⟩ : ∃ p, w.browserPath = some p :=
          Option.ne_none_iff_exists'.mp hbp
        have hbp' : w.browserPath ≠ none := hbp
        by_cases hl : w.launchOk = true
        · by_cases hv : (verify_chrome_listening w.verifyOracle 10).1 = true
          · by_cases hao : w.addOk = true
            · refine Or.inr (Or.inr (Or.inr (Or.inr (Or.inr (Or.inr
                ⟨ha, hip, hbp', hl, hv, hao, ?_⟩)))))
              simp [WindowsOrchestrator.run, setup_portproxy, ha, hip, hp, hl, hv, hao,
                List.append_assoc]
            · have hao' : w.addOk = false := by simpa using hao
              refine Or.inr (Or.inr (Or.inr (Or.inr (Or.inr (Or.inl
                ⟨ha, hip, hbp', hl, hv, hao', ?_⟩)))))
              simp [WindowsOrchestrator.run, setup_portproxy, ha, hip, hp, hl, hv, hao',
                List.append_assoc]
          · have hv' : (verify_chrome_listening w.verifyOracle 10).1 = false := by
              simpa using hv
            refine Or.inr (Or.inr (Or.inr (Or.inr (Or.inl
              ⟨ha, hip, hbp', hl, hv', ?_⟩))))
            simp [WindowsOrchestrator.run, ha, hip, hp, hl, hv', List.append_assoc]
        · have hl' : w.launchOk = false := by simpa using hl
          exact Or.inr (Or.inr (Or.inr (Or.inl ⟨ha, hip, hbp', hl',
            by simp [WindowsOrchestrator.run, ha, hip, hp, hl']⟩)))
  · have ha' : is_admin w.admin = false := by simpa using ha
    exact Or.inl ⟨ha', by simp [WindowsOrchestrator.run, ha']⟩

/-- C3: when the elevated-privilege check fails, `WindowsOrchestrator.run`
returns a failed result carrying the permission-denied message and performs
no action at all — no kill, no spawn, no profile cleanup, no netsh call. -/
theorem windows_run_permission_denied_first (browser : Browser) (debugPort : Nat)
    (w : WinWorld) (h : is_admin w.admin = false) :
    WindowsOrchestrator.run browser debugPort w =
      (⟨false, "", false, false, "Administrator privileges required"⟩, []) := by
  simp [WindowsOrchestrator.run, h]

/-- Witness for `windows_run_permission_denied_first` at a concrete
non-elevated world. -/
theorem windows_run_permission_denied_first_witness :
    is_admin winWorldDenied.admin = false ∧
    WindowsOrchestrator.run Browser.chrome 9222 winWorldDenied =
      (⟨false, "", false, false, "Administrator privileges required"⟩, []) :=
  ⟨by decide, windows_run_permission_denied_first Browser.chrome 9222 winWorldDenied
    (by decide)⟩

/-- C4: `WindowsOrchestrator.run` never performs a netsh portproxy call
unless `verify_chrome_listening` returned `true`; in particular, when
verification fails the run returns a failed result and no netsh call is
made. -/
theorem windows_run_no_relay_before_listening (browser : Browser) (debugPort : Nat)
    (w : WinWorld) :
    ((verify_chrome_listening w.verifyOracle 10).1 = false →
      (WindowsOrchestrator.run browser debugPort w).1.success = false ∧
      ∀ call : NetshCall,
        Action.netsh call ∉ (WindowsOrchestrator.run browser debugPort w).2) ∧
    (∀ call : NetshCall,
      Action.netsh call ∈ (WindowsOrchestrator.run browser debugPort w).2 →
      (verify_chrome_listening w.verifyOracle 10).1 = true) := by
  rcases windows_run_cases browser debugPort w with
    ⟨_, hrun⟩ | ⟨_, _, hrun⟩ | ⟨_, _, _, hrun⟩ | ⟨_, _, _, _, hrun⟩ |
    ⟨_, _, _, _, hv, hrun⟩ | ⟨_, _, _, _, hv, _, hrun⟩ | ⟨_, _, _, _, hv, _, hrun⟩
  · exact ⟨fun _ => ⟨by simp [hrun], fun call => by simp [hrun]⟩,
      fun call hc => by rw [hrun] at hc; simp at hc⟩
  · exact ⟨fun _ => ⟨by simp [hrun], fun call => by simp [hrun]⟩,
      fun call hc => by rw [hrun] at hc; simp at hc⟩
  · exact ⟨fun _ => ⟨by simp [hrun], fun call => by simp [hrun]⟩,
      fun call hc => by rw [hrun] at hc; simp at hc⟩
  · exact ⟨fun _ => ⟨by simp [hrun], fun call => by simp [hrun]⟩,
      fun call hc => by rw [hrun] at hc; simp at hc⟩
  · refine ⟨fun _ => ⟨by simp [hrun], fun call => ?_⟩, fun call hc => ?_⟩
    · rw [hrun]
      simp [List.mem_append, List.mem_replicate]
    · rw [hrun] at hc
      simp [List.mem_append, List.mem_replicate] at hc
  · exact ⟨fun hvf => absurd hvf (by simp [hv]), fun _ _ => hv⟩
  · exact ⟨fun hvf => absurd hvf (by simp [hv]), fun _ _ => hv⟩

/-- Witness for `windows_run_no_relay_before_listening` at a world whose
browser never starts listening: the run fails and makes no netsh call. -/
theorem windows_run_no_relay_before_listening_witness :
    (verify_chrome_listening winWorldNoListen.verifyOracle 10).1 = false ∧
    (WindowsOrchestrator.run Browser.chrome 9222 winWorldNoListen).1.success = false ∧
    Action.netsh (NetshCall.addRule "172.20.144.1" 9222 "127.0.0.1" 9222) ∉
      (WindowsOrchestrator.run Browser.chrome 9222 winWorldNoListen).2 :=
  ⟨by decide,
   ((windows_run_no_relay_before_listening Browser.chrome 9222 winWorldNoListen).1
     (by decide)).1,
   ((windows_run_no_relay_before_listening Browser.chrome 9222 winWorldNoListen).1
     (by decide)).2 (NetshCall.addRule "172.20.144.1" 9222 "127.0.0.1" 9222)⟩

/-- C9: whenever `WindowsOrchestrator.run` reports `success = true`, all
prior milestones were recorded: the browser was verified listening, the
portproxy was configured, the WSL adapter IP is non-empty, and no error
message was set. -/
theorem windows_run_success_milestones (browser : Browser) (debugPort : Nat)
    (w : WinWorld)
    (h : (WindowsOrchestrator.run browser debugPort w).1.success = true) :
    (WindowsOrchestrator.run browser debugPort w).1.chrome_listening = true ∧
    (WindowsOrchestrator.run browser debugPort w).1.portproxy_configured = true ∧
    (WindowsOrchestrator.run browser debugPort w).1.wsl_ip ≠ "" ∧
    (WindowsOrchestrator.run browser debugPort w).1.error_message = "" := by
  rcases windows_run_cases browser debugPort w with
    ⟨_, hrun⟩ | ⟨_, _, hrun⟩ | ⟨_, _, _, hrun⟩ | ⟨_, _, _, _, hrun⟩ |
    ⟨_, _, _, _, _, hrun⟩ | ⟨_, _, _, _, _, _, hrun⟩ | ⟨_, hip, _, _, _, _, hrun⟩
  · rw [hrun] at h; cases h
  · rw [hrun] at h; cases h
  · rw [hrun] at h; cases h
  · rw [hrun] at h; cases h
  · rw [hrun] at h; cases h
  · rw [hrun] at h; cases h
  · exact ⟨by simp [hrun], by simp [hrun], by simp [hrun]; exact hip, by simp [hrun]⟩

/-- Witness for `windows_run_success_milestones` at a fully successful
concrete world. -/
theorem windows_run_success_milestones_witness :
    (WindowsOrchestrator.run Browser.chrome 9222 winWorldOk).1.success = true ∧
    ((WindowsOrchestrator.run Browser.chrome 9222 winWorldOk).1.chrome_listening = true ∧
     (WindowsOrchestrator.run Browser.chrome 9222 winWorldOk).1.portproxy_configured = true ∧
     (WindowsOrchestrator.run Browser.chrome 9222 winWorldOk).1.wsl_ip ≠ "" ∧
     (WindowsOrchestrator.run Browser.chrome 9222 winWorldOk).1.error_message = "") :=
  ⟨by decide, windows_run_success_milestones Browser.chrome 9222 winWorldOk (by decide)⟩

/-- C1 counterexample: in the short-circuit scenario of the claim — host IP
discovered, initial connectivity check already succeeding — the run makes
zero remote invocations and succeeds, but it reports
`windows_setup_completed = true`, not `false` as claimed. -/
theorem wsl_run_short_circuit_counterexample :
    WSLOrchestrator.run wslWorldConnected =
      (⟨true, "192.168.1.1", true, true, ""⟩, [WslAction.checkConnection]) := by
  decide

/-- C1 (amended): in every guest-side run whose discovered host address is
non-empty and whose initial connectivity check succeeds, the run performs no
remote invocation, returns `success = true`, and reports
`windows_setup_completed = true` (the milestone is marked completed even
though the Windows setup was skipped). -/
theorem wsl_run_short_circuit (w : WslWorld) (hip : w.hostIP ≠ "")
    (hc : w.initialConnect = true) :
    (WSLOrchestrator.run w).1.success = true ∧
    (WSLOrchestrator.run w).1.windows_setup_completed = true ∧
    (WSLOrchestrator.run w).2 = [WslAction.checkConnection] ∧
    WslAction.remoteInvoke ∉ (WSLOrchestrator.run w).2 := by
  refine ⟨?_, ?_, ?_, ?_⟩ <;> simp [WSLOrchestrator.run, hip, hc]

/-- Witness for `wsl_run_short_circuit` at the connected concrete world. -/
theorem wsl_run_short_circuit_witness :
    wslWorldConnected.hostIP ≠ "" ∧ wslWorldConnected.initialConnect = true ∧
    ((WSLOrchestrator.run wslWorldConnected).1.success = true ∧
     (WSLOrchestrator.run wslWorldConnected).1.windows_setup_completed = true ∧
     (WSLOrchestrator.run wslWorldConnected).2 = [WslAction.checkConnection] ∧
     WslAction.remoteInvoke ∉ (WSLOrchestrator.run wslWorldConnected).2) :=
  ⟨by decide, rfl, wsl_run_short_circuit wslWorldConnected (by decide) rfl⟩

/-- C2 counterexample: a profile directory holding a lock file and two other
entries, where removing the lock file fails. `cleanup_profile` leaves the
directory present and holding exactly the lock file — neither fully absent
nor untouched, refuting the all-or-nothing claim. -/
theorem cleanup_profile_counterexample :
    cleanup_profile (some ["SingletonLock", "Default", "Cache"])
        (fun e => e == "SingletonLock") = some ["SingletonLock"] ∧
    ¬(cleanup_profile (some ["SingletonLock", "Default", "Cache"])
        (fun e => e == "SingletonLock") = none ∨
      cleanup_profile (some ["SingletonLock", "Default", "Cache"])
        (fun e => e == "SingletonLock") =
          some ["SingletonLock", "Default", "Cache"]) := by
  decide

/-- C2 (amended): `cleanup_profile` is best effort, not all-or-nothing.  An
absent directory is untouched; when every removal succeeds the directory is
fully absent; and in general exactly the entries whose removal failed
survive, so a failed removal can leave the directory partially deleted (in
particular a lock file whose removal fails remains observable). -/
theorem cleanup_profile_best_effort (d : Option (List String))
    (removalFails : String → Bool) :
    (d = none → cleanup_profile d removalFails = none) ∧
    (∀ entries, d = some entries → (∀ e ∈ entries, removalFails e = false) →
      cleanup_profile d removalFails = none) ∧
    (∀ entries es, d = some entries →
      cleanup_profile d removalFails = some es →
      ∀ e ∈ es, e ∈ entries ∧ removalFails e = true) := by
  refine ⟨?_, ?_, ?_⟩
  · intro h; subst h; rfl
  · intro entries h hf
    subst h
    have hnil : entries.filter removalFails = [] := by
      rw [List.filter_eq_nil_iff]
      intro e he
      simp [hf e he]
    simp [cleanup_profile, hnil]
  · intro entries es h hc e he
    subst h
    unfold cleanup_profile at hc
    by_cases hnil : (entries.filter removalFails).isEmpty
    · simp [hnil] at hc
    · simp [hnil] at hc
      subst hc
      have := List.mem_filter.mp he
      exact ⟨this.1, this.2⟩

/-- Witness for `cleanup_profile_best_effort`: the surviving lock file came
from the original directory and its removal failed; a fully removable
directory ends up absent. -/
theorem cleanup_profile_best_effort_witness :
    cleanup_profile (some ["SingletonLock", "Default"])
        (fun e => e == "SingletonLock") = some ["SingletonLock"] ∧
    ("SingletonLock" ∈ ["SingletonLock", "Default"] ∧
      ("SingletonLock" == "SingletonLock") = true) ∧
    cleanup_profile (some ["SingletonLock", "Default"]) (fun _ => false) = none :=
  ⟨by decide,
   (cleanup_profile_best_effort (some ["SingletonLock", "Default"])
       (fun e => e == "SingletonLock")).2.2
     ["SingletonLock", "Default"] ["SingletonLock"] rfl (by decide)
     "SingletonLock" (by decide),
   (cleanup_profile_best_effort (some ["SingletonLock", "Default"])
       (fun _ => false)).2.1 ["SingletonLock", "Default"] rfl
     (fun _ _ => rfl)⟩

/-- A string built from a non-empty character list is not the empty string. -/
theorem mk_reverse_ne_empty (acc : List Char) (h : acc ≠ []) :
    String.mk acc.reverse ≠ "" := by
  intro he
  apply h
  have hd : acc.reverse = ([] : List Char) := by
    have := congrArg String.data he
    simpa using this
  simpa using hd

/-- Every word produced by the whitespace splitter is non-empty. -/
theorem splitWsAux_ne_empty :
    ∀ (l acc : List Char), ∀ s ∈ splitWsAux l acc, s ≠ "" := by
  intro l
  induction l with
  | nil =>
    intro acc s hs
    unfold splitWsAux at hs
    by_cases h : acc = []
    · simp [h] at hs
    · simp [h] at hs
      subst hs
      exact mk_reverse_ne_empty acc h
  | cons c rest ih =>
    intro acc s hs
    unfold splitWsAux at hs
    by_cases hw : c.isWhitespace
    · by_cases he : acc = []
      · simp [hw, he] at hs
        exact ih [] s hs
      · simp [hw, he] at hs
        rcases hs with hs | hs
        · subst hs
          exact mk_reverse_ne_empty acc he
        · exact ih [] s hs
    · simp [hw] at hs
      exact ih (c :: acc) s hs

/-- A nameserver entry extracted from a resolver line is never the empty
string (it is a whitespace-delimited word of the line). -/
theorem nameserverOfLine_ne_empty (raw ip : String)
    (h : nameserverOfLine raw = some ip) : ip ≠ "" := by
  unfold nameserverOfLine at h
  by_cases hs : pyStartsWith (pyStrip raw) "nameserver"
  · simp only [hs, if_true] at h
    cases hsp : pySplit (pyStrip raw) with
    | nil => rw [hsp] at h; cases h
    | cons a tl =>
      cases tl with
      | nil => rw [hsp] at h; cases h
      | cons b tl2 =>
        rw [hsp] at h
        have hb : b = ip := by
          simpa using h
        subst hb
        have hmem : b ∈ pySplit (pyStrip raw) := by
          rw [hsp]; exact List.mem_cons_of_mem _ (List.mem_cons_self _ _)
        exact splitWsAux_ne_empty (pyStrip raw).data [] b hmem
  · simp only [hs, if_false] at h
    cases h

/-- The first usable nameserver of a resolver configuration is non-empty. -/
theorem firstNameserver_ne_empty (lines : List String) (ip : String)
    (h : firstNameserver lines = some ip) : ip ≠ "" := by
  unfold firstNameserver at h
  induction lines with
  | nil => cases h
  | cons a tl ih =>
    rw [List.findSome?_cons] at h
    cases ha : nameserverOfLine a with
    | some v =>
      rw [ha] at h
      have hv : v = ip := by simpa using h
      subst hv
      exact nameserverOfLine_ne_empty a v ha
    | none =>
      rw [ha] at h
      exact ih h

/-- C5 counterexample: when `/etc/resolv.conf` cannot be read at all, the
route fallback is skipped even though it would succeed — the function
reports an unknown host address while method 2 does not fail. -/
theorem detect_wsl_host_ip_counterexample :
    detect_wsl_host_ip Environment.wsl (Except.error ReadErr.otherError)
        (Except.ok (0, "default via 192.168.1.1 dev eth0")) = "" ∧
    parse_default_route (Except.ok (0, "default via 192.168.1.1 dev eth0")) =
      "192.168.1.1" := by
  exact ⟨rfl, by decide⟩

/-- C5 (amended): for a guest-side run, when the resolver configuration is
readable a found nameserver entry is returned, otherwise the default-route
parse is returned, and the result is empty exactly when both methods yield
nothing; but when the resolver configuration cannot be read at all the
function returns empty without attempting the route fallback. -/
theorem detect_wsl_host_ip_fallback (lines : List String)
    (ipRoute : Except Unit (Int × String)) :
    (∀ ip, firstNameserver lines = some ip →
      detect_wsl_host_ip Environment.wsl (Except.ok lines) ipRoute = ip) ∧
    (firstNameserver lines = none →
      detect_wsl_host_ip Environment.wsl (Except.ok lines) ipRoute =
        parse_default_route ipRoute) ∧
    (detect_wsl_host_ip Environment.wsl (Except.ok lines) ipRoute = "" ↔
      firstNameserver lines = none ∧ parse_default_route ipRoute = "") ∧
    (∀ e : ReadErr,
      detect_wsl_host_ip Environment.wsl (Except.error e) ipRoute = "") := by
  refine ⟨?_, ?_, ?_, ?_⟩
  · intro ip hf
    simp [detect_wsl_host_ip, hf]
  · intro hf
    simp [detect_wsl_host_ip, hf]
  · cases hf : firstNameserver lines with
    | some ip =>
      have hne := firstNameserver_ne_empty lines ip hf
      simp [detect_wsl_host_ip, hf]
      exact hne
    | none => simp [detect_wsl_host_ip, hf]
  · intro e
    rfl

/-- Witness for `detect_wsl_host_ip_fallback`: a concrete resolver
configuration whose nameserver entry is returned. -/
theorem detect_wsl_host_ip_fallback_witness :
    firstNameserver ["# generated by WSL", "nameserver 172.29.208.1"] =
      some "172.29.208.1" ∧
    detect_wsl_host_ip Environment.wsl
        (Except.ok ["# generated by WSL", "nameserver 172.29.208.1"])
        (Except.error ()) = "172.29.208.1" :=
  ⟨by decide,
   (detect_wsl_host_ip_fallback ["# generated by WSL", "nameserver 172.29.208.1"]
       (Except.error ())).1 "172.29.208.1" (by decide)⟩

/-- C8 counterexample: on a Linux system where reading `/proc/version` fails
with an error other than absence (for example a permission error), the
`except FileNotFoundError` clause does not apply and `detect_environment`
propagates the error instead of returning a classification. -/
theorem detect_environment_counterexample :
    detect_environment "Linux" (Except.error ReadErr.otherError) =
      Except.error ReadErr.otherError := rfl

/-- C8 (amended): `detect_environment` returns a classification for every
reported operating-system identity whenever the kernel version metadata is
readable or absent — with unrecognized systems classified as unknown — but a
read error other than absence, on Linux, propagates out of it. -/
theorem detect_environment_total_cases (system : String)
    (pv : Except ReadErr String) :
    ((pyLower system ≠ "linux" ∨ pv ≠ Except.error ReadErr.otherError) →
      ∃ e, detect_environment system pv = Except.ok e) ∧
    (pyLower system ∉ (["windows", "linux", "darwin"] : List String) →
      detect_environment system pv = Except.ok Environment.unknown) := by
  constructor
  · intro h
    by_cases h1 : pyLower system = "windows"
    · exact ⟨.windows, by simp [detect_environment, h1]⟩
    · by_cases h2 : pyLower system = "linux"
      · cases pv with
        | ok content =>
          by_cases hc : (pyContains (pyLower content) "microsoft" ||
              pyContains (pyLower content) "wsl") = true
          · exact ⟨.wsl, by simp [detect_environment, h1, h2, hc]⟩
          · have hc' : (pyContains (pyLower content) "microsoft" ||
                pyContains (pyLower content) "wsl") = false := by simpa using hc
            exact ⟨.linux, by simp [detect_environment, h1, h2, hc']⟩
        | error e =>
          cases e with
          | fileNotFound => exact ⟨.linux, by simp [detect_environment, h1, h2]⟩
          | otherError =>
            rcases h with h | h
            · exact absurd h2 h
            · exact absurd rfl h
      · by_cases h3 : pyLower system = "darwin"
        · exact ⟨.macos, by simp [detect_environment, h1, h2, h3]⟩
        · exact ⟨.unknown, by simp [detect_environment, h1, h2, h3]⟩
  · intro hmem
    simp only [List.mem_cons, List.not_mem_nil, or_false, not_or] at hmem
    obtain ⟨h1, h2, h3⟩ := hmem
    simp [detect_environment, h1, h2, h3]

/-- Witness for `detect_environment_total_cases`: an unrecognized system is
classified as unknown, and an absent metadata file on Linux classifies as
plain Linux. -/
theorem detect_environment_total_cases_witness :
    (pyLower "Plan9" ∉ (["windows", "linux", "darwin"] : List String)) ∧
    detect_environment "Plan9" (Except.ok "generic kernel") =
      Except.ok Environment.unknown ∧
    (pyLower "Linux" ≠ "linux" ∨
      (Except.error ReadErr.fileNotFound : Except ReadErr String) ≠
        Except.error ReadErr.otherError) ∧
    ∃ e, detect_environment "Linux" (Except.error ReadErr.fileNotFound) =
      Except.ok e :=
  ⟨by decide,
   (detect_environment_total_cases "Plan9" (Except.ok "generic kernel")).2
     (by decide),
   Or.inr (by simp),
   (detect_environment_total_cases "Linux"
       (Except.error ReadErr.fileNotFound)).1 (Or.inr (by simp))⟩

end WslDevKit
